import Mathlib

/-!
Verification of `src/client.py` from the `google_clients` repository: a thin
client for a remote video-generation API.  The module's single function
`generate` builds an endpoint URL and a JSON request body, performs one
synchronous HTTP POST, and extracts a base64-encoded video payload from the
JSON response, normalizing every failure to a `None` return.

The embedding below translates the Python source faithfully:
* JSON values (as produced by `json.loads`) become the inductive `Json`;
* the outcome of the HTTP exchange becomes the oracle type `HttpOutcome`
  supplied to `generate` (network failure, or a response with a status code
  and the result of `response.json()`);
* Python's `base64.b64decode` (with `validate=False`, as called by the
  client) becomes `b64decode`, modelling CPython's `binascii.a2b_base64` in
  non-strict mode: characters outside the base64 alphabet are silently
  discarded, padding terminates a quad, and a leftover of data characters
  inconsistent with padding raises `binascii.Error` (modelled as `none`);
* every exception path of the Python function is caught by one of its three
  `except` clauses and returns `None`, so `generate` is a total Lean
  function returning `Option (List Nat)` for the video bytes, paired with
  the request it sends.
-/

set_option autoImplicit false

namespace GoogleClients

/-- JSON values, the possible results of `json.loads` on a response body. -/
inductive Json where
  | null
  | bool (b : Bool)
  | num (n : Int)
  | str (s : String)
  | arr (elems : List Json)
  | obj (fields : List (String × Json))
  deriving Repr

/-- First-match association lookup on the field list of a JSON object,
modelling `key in d` / `d[key]` on a Python dict (post-`json.loads`, keys
are unique, so first match and last match agree). -/
def lookupField : List (String × Json) → String → Option Json
  | [], _ => none
  | (k, v) :: rest, key => if k = key then some v else lookupField rest key

/-- Dictionary lookup lifted to arbitrary JSON values: on a non-object the
key is never found.  In the Python source every code path that reaches a
lookup on a non-dict value ends in a caught exception or a failed
membership test, and hence in `return None`, which coincides with the
`none` this returns. -/
def Json.lookup : Json → String → Option Json
  | .obj fields, key => lookupField fields key
  | _, _ => none

/-- Python truthiness of a JSON value, as tested by
`not response_data[&apos;predictions&apos;]` in the source. -/
def Json.truthy : Json → Bool
  | .null => false
  | .bool b => b
  | .num n => n != 0
  | .str s => s != ""
  | .arr elems => !elems.isEmpty
  | .obj fields => !fields.isEmpty

/-- Value of a character in the standard base64 alphabet
(`table_a2b_base64` in CPython's `binascii`), `none` for every other
character. -/
def b64Val (c : Char) : Option Nat :=
  if 'A' ≤ c ∧ c ≤ 'Z' then some (c.toNat - 65)
  else if 'a' ≤ c ∧ c ≤ 'z' then some (c.toNat - 97 + 26)
  else if '0' ≤ c ∧ c ≤ '9' then some (c.toNat - 48 + 52)
  else if c = '+' then some 62
  else if c = '/' then some 63
  else none

/-- Main loop of CPython's `binascii.a2b_base64` in non-strict mode
(`strict_mode=0`), which is what `base64.b64decode(s)` calls when
`validate` is left `False`.  State: remaining characters, position inside
the current 4-character quad (`quad_pos`), pending bits (`leftchar`),
count of consecutive padding characters seen at quad position ≥ 2
(`pads`), and the output bytes accumulated in reverse.  Characters outside
the alphabet are skipped; a padding character completes the input once
`quad_pos + pads` reaches 4; at end of input a nonzero `quad_pos` is an
error (`binascii.Error`), modelled as `none`. -/
def a2bBase64 : List Char → Nat → Nat → Nat → List Nat → Option (List Nat)
  | [], quadPos, _, _, acc =>
      if quadPos = 0 then some acc.reverse else none
  | c :: rest, quadPos, leftchar, pads, acc =>
      if c = '=' then
        if 2 ≤ quadPos ∧ 4 ≤ quadPos + (pads + 1) then some acc.reverse
        else a2bBase64 rest quadPos leftchar
          (if 2 ≤ quadPos then pads + 1 else pads) acc
      else
        match b64Val c with
        | none => a2bBase64 rest quadPos leftchar pads acc
        | some v =>
          match quadPos with
          | 0 => a2bBase64 rest 1 v 0 acc
          | 1 => a2bBase64 rest 2 (v % 16) 0 ((leftchar * 4 + v / 16) :: acc)
          | 2 => a2bBase64 rest 3 (v % 4) 0 ((leftchar * 16 + v / 4) :: acc)
          | _ => a2bBase64 rest 0 0 0 ((leftchar * 64 + v) :: acc)

/-- Python `base64.b64decode(s)` on a `str` argument with default
`validate=False`: the string is first ASCII-encoded (a non-ASCII character
raises `ValueError`, modelled as `none`; in the client that exception is
caught by the final bare `except Exception`, with the same `None` result
as a `binascii.Error`), then fed to `binascii.a2b_base64` in non-strict
mode. -/
def b64decode (s : String) : Option (List Nat) :=
  if s.toList.all (fun c => c.toNat ≤ 127) then a2bBase64 s.toList 0 0 0 []
  else none

/-- Extraction of the video bytes from the parsed JSON body of a 2xx
response, mirroring lines 76-92 of `src/client.py`:
`if predictions not in response_data or not response_data[predictions]:
return None`, then `prediction = response_data[predictions][0]`, then
`if bytesB64Encoded not in prediction: return None`, then
`base64.b64decode(prediction[bytesB64Encoded])`.  Shape mismatches that in
Python raise `TypeError`/`KeyError`/`IndexError` inside the `try` block
are caught by the function's `except` clauses and turn into `None`, which
is the `none` of the catch-all branches here. -/
def extractVideoBytes (responseData : Json) : Option (List Nat) :=
  match responseData.lookup "predictions" with
  | none => none
  | some predictions =>
    if !predictions.truthy then none
    else
      match predictions with
      | .arr (prediction :: _) =>
        match prediction.lookup "bytesB64Encoded" with
        | some (.str b64_video) => b64decode b64_video
        | some _ => none
        | none => none
      | _ => none

/-- Configuration supplied by `commons.llm_config.constants.Constants`:
API key, project id, location, base URL template (containing a
`\x7bLOCATION\x7d` placeholder), and the model identifier the module reads
from `Constants.GOOGLE_GENAI_MODELS["veo-2.0"]`. -/
structure Constants where
  GOOGLE_GENAI_API_KEY : String
  GOOGLE_GENAI_PROJECT_ID : String
  GOOGLE_GENAI_LOCATION : String
  GOOGLE_GENAI_BASE_URL : String
  veoModelId : String

/-- The HTTP request `generate` hands to `requests.post`. -/
structure SentRequest where
  url : String
  contentType : String
  body : Json

/-- A response as observed through the `requests` API: the integer status
code, and the result of `response.json()` (`none` models a
`json.JSONDecodeError`). -/
structure HttpResponse where
  status_code : Nat
  jsonBody : Option Json

/-- Outcome of the HTTP exchange: either `requests.post` raises a
`RequestException` (connection error, timeout, ...) before a response is
available, or a response is returned. -/
inductive HttpOutcome where
  | requestError
  | resp (r : HttpResponse)

/-- Condition under which `response.raise_for_status()` raises an
`HTTPError`: the `requests` library raises exactly for client errors
(400 ≤ code < 500) and server errors (500 ≤ code < 600). -/
def raiseForStatusRaises (status_code : Nat) : Bool :=
  (400 ≤ status_code && status_code < 500) ||
  (500 ≤ status_code && status_code < 600)

/-- Request body construction, lines 48-61 of `src/client.py`: the default
`instances`/`parameters` document, unless a custom `data` body was
supplied (`if data is None`). -/
def buildRequestBody (prompt : String) (aspect_ratio : String)
    (duration : String) (data : Option Json) : Json :=
  match data with
  | some d => d
  | none =>
    .obj [("instances", .arr [.obj [("prompt", .str prompt)]]),
          ("parameters", .obj [("sampleCount", .num 1),
                               ("aspectRatio", .str aspect_ratio),
                               ("duration", .str duration),
                               ("outputMimeType", .str "video/mp4")])]

/-- URL construction, lines 34-41 of `src/client.py`: default the model id,
substitute the location into the base URL template, then append the
project, location and model path segments and the API key query
parameter. -/
def buildUrl (c : Constants) (model_id : Option String) : String :=
  let mid := match model_id with
    | none => c.veoModelId
    | some m => m
  let base_url := c.GOOGLE_GENAI_BASE_URL.replace "\x7bLOCATION\x7d"
    c.GOOGLE_GENAI_LOCATION
  base_url ++ "/" ++ c.GOOGLE_GENAI_PROJECT_ID ++ "/locations/" ++
    c.GOOGLE_GENAI_LOCATION ++ "/publishers/google/models/" ++ mid ++
    ":predict?key=" ++ c.GOOGLE_GENAI_API_KEY

/-- The `generate` function of `src/client.py`, embedded shallowly.  It
returns the request it sends together with its return value.  The `world`
argument is the oracle for the one HTTP exchange.  The whole body of the
Python function sits inside a `try` whose `except` clauses catch
`requests.exceptions.RequestException`, `(json.JSONDecodeError, KeyError,
IndexError, base64.binascii.Error)` and finally `Exception`, each
returning `None`; consequently the embedding is a total function and every
failure branch yields `none`. -/
def generate (c : Constants) (prompt : String) (model_id : Option String)
    (aspect_ratio : String) (duration : String) (data : Option Json)
    (world : HttpOutcome) : SentRequest × Option (List Nat) :=
  let url := buildUrl c model_id
  let body := buildRequestBody prompt aspect_ratio duration data
  let req : SentRequest :=
    { url := url, contentType := "application/json", body := body }
  let result : Option (List Nat) :=
    match world with
    | .requestError => none
    | .resp r =>
      if raiseForStatusRaises r.status_code then none
      else
        match r.jsonBody with
        | none => none
        | some j => extractVideoBytes j
  (req, result)

/-- The result check of the standalone entry point (`if video_data:` at
line 131 of `src/client.py`): Python truthiness of an
`Optional[bytes]` value — `None` and the empty byte string are both
falsy. -/
def mainWritesFile : Option (List Nat) → Bool
  | none => false
  | some bs => !bs.isEmpty

/-- Endpoint URL written from the specification's words: substitute the
configured location for the location placeholder of the base URL template,
then append the project ID, the location and the model path segments
(ending in ":predict") and the API key as a "key" query parameter; an
absent model_id defaults to the preconfigured identifier from the model
map.  Stated separately from the code's own construction in `generate` so
the two can be compared. -/
def specEndpointUrl (c : Constants) (model_id : Option String) : String :=
  (c.GOOGLE_GENAI_BASE_URL.replace "\x7bLOCATION\x7d" c.GOOGLE_GENAI_LOCATION)
    ++ "/" ++ c.GOOGLE_GENAI_PROJECT_ID ++ "/locations/"
    ++ c.GOOGLE_GENAI_LOCATION ++ "/publishers/google/models/"
    ++ (model_id.getD c.veoModelId) ++ ":predict?key="
    ++ c.GOOGLE_GENAI_API_KEY

/-- Base64 syntax per the specification's phrase "a syntactically invalid
base64 string", read with the standard grammar (RFC 4648 section 4): the
length is a multiple of four and every character belongs to the base64
alphabet, except that the final one or two characters may be padding.
This is a spec-side definition, written to be compared with the behavior
of the decoder the code actually calls (`b64decode`), which instead
silently discards characters outside the alphabet. -/
def specSyntacticallyValidBase64 (s : String) : Bool :=
  let cs := s.toList
  Nat.mod cs.length 4 == 0 &&
    match cs.reverse with
    | '=' :: '=' :: rest => rest.all (fun c => (b64Val c).isSome)
    | '=' :: rest => rest.all (fun c => (b64Val c).isSome)
    | rest => rest.all (fun c => (b64Val c).isSome)

/-- Concrete configuration used to instantiate theorems on closed inputs. -/
def cfgTest : Constants :=
  { GOOGLE_GENAI_API_KEY := "test-key"
    GOOGLE_GENAI_PROJECT_ID := "proj"
    GOOGLE_GENAI_LOCATION := "us-central1"
    GOOGLE_GENAI_BASE_URL :=
      "https://api.example.com/v1/\x7bLOCATION\x7d/projects"
    veoModelId := "veo-2.0-generate-001" }

/-- Response body of the documented success shape, with `b64` in the
`bytesB64Encoded` field of the single prediction. -/
def goodResponseBody (b64 : String) : Json :=
  .obj [("predictions", .arr [.obj [("bytesB64Encoded", .str b64)]])]

/- ------------------------------------------------------------------ -/
/- Helper lemmas                                                       -/
/- ------------------------------------------------------------------ -/

theorem Json.lookup_eq_some {j : Json} {key : String} {v : Json}
    (h : j.lookup key = some v) :
    ∃ fields, j = Json.obj fields ∧ lookupField fields key = some v := by
  cases j with
  | obj fields => exact ⟨fields, rfl, h⟩
  | null => exact absurd h (by simp [Json.lookup])
  | bool b => exact absurd h (by simp [Json.lookup])
  | num n => exact absurd h (by simp [Json.lookup])
  | str s => exact absurd h (by simp [Json.lookup])
  | arr elems => exact absurd h (by simp [Json.lookup])

/-- Inversion: the only way `extractVideoBytes` produces bytes is the
documented success shape — an object body whose `predictions` field is a
nonempty array whose first element is an object carrying a string
`bytesB64Encoded` the decoder accepts. -/
theorem extractVideoBytes_some {j : Json} {bs : List Nat}
    (h : extractVideoBytes j = some bs) :
    ∃ fields pfields rest s,
      j = Json.obj fields ∧
      lookupField fields "predictions" =
        some (.arr (Json.obj pfields :: rest)) ∧
      lookupField pfields "bytesB64Encoded" = some (.str s) ∧
      b64decode s = some bs := by
  unfold extractVideoBytes at h
  split at h
  · exact absurd h (by simp)
  · rename_i predictions hlook
    split at h
    · exact absurd h (by simp)
    · split at h
      · rename_i prediction tail htruthy
        split at h
        · rename_i b64_video hb
          obtain ⟨fields, hj, hfields⟩ := Json.lookup_eq_some hlook
          obtain ⟨pfields, hp, hpfields⟩ := Json.lookup_eq_some hb
          subst hj hp
          exact ⟨fields, pfields, tail, b64_video, rfl, hfields, hpfields, h⟩
        · exact absurd h (by simp)
        · exact absurd h (by simp)
      · exact absurd h (by simp)

/-- A status code in the 2xx range does not trip
`response.raise_for_status()`. -/
theorem raiseForStatusRaises_of_2xx {status : Nat}
    (h : 200 ≤ status ∧ status < 300) :
    raiseForStatusRaises status = false := by
  simp only [raiseForStatusRaises, Bool.or_eq_false_iff, Bool.and_eq_false_iff,
    decide_eq_false_iff_not, not_le, not_lt]
  omega

/- ------------------------------------------------------------------ -/
/- Claims                                                              -/
/- ------------------------------------------------------------------ -/

/-- Claim C1: for every 2xx API response whose JSON body has a non-empty
predictions list whose first element contains a bytesB64Encoded field
holding a valid base64 string, generate returns exactly the byte sequence
obtained by base64-decoding that string. -/
theorem generate_returns_decoded_bytes (c : Constants) (prompt : String)
    (model_id : Option String) (aspect_ratio duration : String)
    (data : Option Json) (status : Nat)
    (fields pfields : List (String × Json)) (rest : List Json)
    (s : String) (bs : List Nat)
    (hstatus : 200 ≤ status ∧ status < 300)
    (hpred : lookupField fields "predictions" =
      some (.arr (.obj pfields :: rest)))
    (hb64 : lookupField pfields "bytesB64Encoded" = some (.str s))
    (hdec : b64decode s = some bs) :
    (generate c prompt model_id aspect_ratio duration data
      (.resp ⟨status, some (.obj fields)⟩)).2 = some bs := by
  simp [generate, raiseForStatusRaises_of_2xx hstatus, extractVideoBytes,
    Json.lookup, hpred, Json.truthy, hb64, hdec]

/-- Witness for C1 at a concrete response carrying the base64 of the two
bytes "hi". -/
theorem generate_returns_decoded_bytes_witness :
    (generate cfgTest "a cat" none "16:9" "5s" none
      (.resp ⟨200, some (goodResponseBody "aGk=")⟩)).2 = some [104, 105] :=
  generate_returns_decoded_bytes cfgTest "a cat" none "16:9" "5s" none 200
    [("predictions", .arr [.obj [("bytesB64Encoded", .str "aGk=")]])]
    [("bytesB64Encoded", .str "aGk=")] [] "aGk=" [104, 105]
    (by decide) rfl rfl (by decide)

/-- Claim C3: when the caller supplies a non-None data argument, the
request body sent in the POST equals data exactly, for every prompt,
aspect_ratio and duration — the default instances/parameters construction
is bypassed entirely. -/
theorem generate_custom_data_is_body (c : Constants) (prompt : String)
    (model_id : Option String) (aspect_ratio duration : String) (d : Json)
    (world : HttpOutcome) :
    (generate c prompt model_id aspect_ratio duration (some d) world).1.body
      = d := rfl

/-- Claim C8: when generate is called with prompt "test", no data argument
and default parameters, the request body sent is exactly the documented
instances/parameters document. -/
theorem generate_default_body_for_test_prompt (c : Constants)
    (model_id : Option String) (world : HttpOutcome) :
    (generate c "test" model_id "16:9" "5s" none world).1.body =
      Json.obj [("instances", .arr [.obj [("prompt", .str "test")]]),
                ("parameters", .obj [("sampleCount", .num 1),
                                     ("aspectRatio", .str "16:9"),
                                     ("duration", .str "5s"),
                                     ("outputMimeType", .str "video/mp4")])]
    := rfl

/-- Claim C9: for every call, the endpoint URL is built by substituting
the configured location into the base URL template's location placeholder,
then appending the project ID, location and model path segments (ending in
":predict") and the API key as a "key" query parameter; an absent model_id
defaults to the preconfigured identifier from the model map
(`specEndpointUrl` states this construction in the specification's
words). -/
theorem generate_url_matches_spec (c : Constants) (prompt : String)
    (model_id : Option String) (aspect_ratio duration : String)
    (data : Option Json) (world : HttpOutcome) :
    (generate c prompt model_id aspect_ratio duration data world).1.url =
      specEndpointUrl c model_id := by
  cases model_id <;> rfl

/-- Claim C4 as stated is false: `response.raise_for_status()` raises only
for status codes in [400, 600), so a (non-standard but syntactically
legal) status code of 600 carrying a well-formed body sails through and
generate returns the decoded bytes rather than None. -/
theorem generate_status600_counterexample :
    400 ≤ 600 ∧
    (generate cfgTest "a cat" none "16:9" "5s" none
      (.resp ⟨600, some (goodResponseBody "aGk=")⟩)).2 ≠ none := by
  exact ⟨by decide, by decide⟩

/-- Claim C4, amended: for every HTTP response whose status code lies in
[400, 600) — the exact range for which raise_for_status raises — generate
returns None, whatever the body holds, and (being total) raises nothing to
the caller. -/
theorem generate_4xx_5xx_returns_none (c : Constants) (prompt : String)
    (model_id : Option String) (aspect_ratio duration : String)
    (data : Option Json) (r : HttpResponse)
    (h : 400 ≤ r.status_code ∧ r.status_code < 600) :
    (generate c prompt model_id aspect_ratio duration data (.resp r)).2
      = none := by
  have hr : raiseForStatusRaises r.status_code = true := by
    simp only [raiseForStatusRaises, Bool.or_eq_true, Bool.and_eq_true,
      decide_eq_true_eq]
    omega
  simp [generate, hr]

/-- Witness for the amended C4 at status 404 with a well-formed body. -/
theorem generate_4xx_5xx_returns_none_witness :
    (generate cfgTest "a cat" none "16:9" "5s" none
      (.resp ⟨404, some (goodResponseBody "aGk=")⟩)).2 = none :=
  generate_4xx_5xx_returns_none cfgTest "a cat" none "16:9" "5s" none
    ⟨404, some (goodResponseBody "aGk=")⟩ (by decide)

/-- Claim C5: for every 2xx response whose JSON body either lacks the
predictions key or maps it to an empty list, generate returns None. -/
theorem generate_missing_or_empty_predictions (c : Constants)
    (prompt : String) (model_id : Option String)
    (aspect_ratio duration : String) (data : Option Json)
    (status : Nat) (j : Json)
    (hstatus : 200 ≤ status ∧ status < 300)
    (hp : j.lookup "predictions" = none ∨
      j.lookup "predictions" = some (.arr [])) :
    (generate c prompt model_id aspect_ratio duration data
      (.resp ⟨status, some j⟩)).2 = none := by
  rcases hp with hp | hp <;>
    simp [generate, raiseForStatusRaises_of_2xx hstatus, extractVideoBytes,
      hp, Json.truthy]

/-- Witness for C5 at a 200 response whose body is an object without a
predictions field. -/
theorem generate_missing_or_empty_predictions_witness :
    (generate cfgTest "a cat" none "16:9" "5s" none
      (.resp ⟨200, some (.obj [("error", .str "quota")])⟩)).2 = none :=
  generate_missing_or_empty_predictions cfgTest "a cat" none "16:9" "5s"
    none 200 (.obj [("error", .str "quota")]) (by decide) (Or.inl rfl)

/-- Claim C6: for every 2xx response whose first element of predictions
lacks the bytesB64Encoded key, generate returns None.  The first element
is an arbitrary JSON value here: a non-object first element also lacks the
key and also yields None. -/
theorem generate_missing_bytes_field (c : Constants) (prompt : String)
    (model_id : Option String) (aspect_ratio duration : String)
    (data : Option Json) (status : Nat)
    (fields : List (String × Json)) (p : Json) (rest : List Json)
    (hstatus : 200 ≤ status ∧ status < 300)
    (hpred : lookupField fields "predictions" = some (.arr (p :: rest)))
    (hmiss : p.lookup "bytesB64Encoded" = none) :
    (generate c prompt model_id aspect_ratio duration data
      (.resp ⟨status, some (.obj fields)⟩)).2 = none := by
  cases p with
  | obj pfields =>
    simp only [Json.lookup] at hmiss
    simp [generate, raiseForStatusRaises_of_2xx hstatus, extractVideoBytes,
      Json.lookup, hpred, Json.truthy, hmiss]
  | null =>
    simp [generate, raiseForStatusRaises_of_2xx hstatus, extractVideoBytes,
      Json.lookup, hpred, Json.truthy]
  | bool b =>
    simp [generate, raiseForStatusRaises_of_2xx hstatus, extractVideoBytes,
      Json.lookup, hpred, Json.truthy]
  | num n =>
    simp [generate, raiseForStatusRaises_of_2xx hstatus, extractVideoBytes,
      Json.lookup, hpred, Json.truthy]
  | str s =>
    simp [generate, raiseForStatusRaises_of_2xx hstatus, extractVideoBytes,
      Json.lookup, hpred, Json.truthy]
  | arr elems =>
    simp [generate, raiseForStatusRaises_of_2xx hstatus, extractVideoBytes,
      Json.lookup, hpred, Json.truthy]

/-- Witness for C6 at a 200 response whose single prediction carries a
different field. -/
theorem generate_missing_bytes_field_witness :
    (generate cfgTest "a cat" none "16:9" "5s" none
      (.resp ⟨200, some (.obj [("predictions",
        .arr [.obj [("mimeType", .str "video/mp4")]])])⟩)).2 = none :=
  generate_missing_bytes_field cfgTest "a cat" none "16:9" "5s" none 200
    [("predictions", .arr [.obj [("mimeType", .str "video/mp4")]])]
    (.obj [("mimeType", .str "video/mp4")]) [] (by decide) rfl rfl

/-- Claim C7 as stated is false: the string "!!!!" is syntactically
invalid base64 (no character belongs to the alphabet), yet Python's
`base64.b64decode` with its default `validate=False` silently discards the
offending characters, decodes the remaining empty input to the empty byte
string, and generate returns it instead of None. -/
theorem generate_invalid_b64_counterexample :
    specSyntacticallyValidBase64 "!!!!" = false ∧
    (generate cfgTest "a cat" none "16:9" "5s" none
      (.resp ⟨200, some (goodResponseBody "!!!!")⟩)).2 = some [] := by
  exact ⟨by decide, by decide⟩

/-- Claim C7, amended: for every 2xx response whose
predictions[0].bytesB64Encoded is a string the base64 decoder actually
rejects (the number of data characters left after discarding non-alphabet
characters is inconsistent with the padding, or the string is not ASCII),
generate returns None; a merely syntactically invalid string need not be
rejected, because characters outside the alphabet are discarded rather
than refused. -/
theorem generate_b64_reject_returns_none (c : Constants) (prompt : String)
    (model_id : Option String) (aspect_ratio duration : String)
    (data : Option Json) (status : Nat)
    (fields pfields : List (String × Json)) (rest : List Json) (s : String)
    (hstatus : 200 ≤ status ∧ status < 300)
    (hpred : lookupField fields "predictions" =
      some (.arr (.obj pfields :: rest)))
    (hb64 : lookupField pfields "bytesB64Encoded" = some (.str s))
    (hdec : b64decode s = none) :
    (generate c prompt model_id aspect_ratio duration data
      (.resp ⟨status, some (.obj fields)⟩)).2 = none := by
  simp [generate, raiseForStatusRaises_of_2xx hstatus, extractVideoBytes,
    Json.lookup, hpred, Json.truthy, hb64, hdec]

/-- Witness for the amended C7 at the one-character string "a", whose
single data character is one more than a multiple of four and is therefore
rejected by the decoder. -/
theorem generate_b64_reject_returns_none_witness :
    (generate cfgTest "a cat" none "16:9" "5s" none
      (.resp ⟨200, some (goodResponseBody "a")⟩)).2 = none :=
  generate_b64_reject_returns_none cfgTest "a cat" none "16:9" "5s" none
    200 [("predictions", .arr [.obj [("bytesB64Encoded", .str "a")]])]
    [("bytesB64Encoded", .str "a")] [] "a" (by decide) rfl rfl (by decide)

/-- Claim C10: for a 2xx response whose predictions[0].bytesB64Encoded is
the empty string, generate returns the empty byte sequence rather than
None; and since empty bytes are falsy in Python, the truthiness test of
the standalone entry point evaluates on it exactly as it does on the None
of a failure, so that caller cannot distinguish the two. -/
theorem generate_empty_b64_empty_bytes (c : Constants) (prompt : String)
    (model_id : Option String) (aspect_ratio duration : String)
    (data : Option Json) (status : Nat)
    (fields pfields : List (String × Json)) (rest : List Json)
    (hstatus : 200 ≤ status ∧ status < 300)
    (hpred : lookupField fields "predictions" =
      some (.arr (.obj pfields :: rest)))
    (hb64 : lookupField pfields "bytesB64Encoded" = some (.str "")) :
    (generate c prompt model_id aspect_ratio duration data
      (.resp ⟨status, some (.obj fields)⟩)).2 = some [] ∧
    mainWritesFile
      (generate c prompt model_id aspect_ratio duration data
        (.resp ⟨status, some (.obj fields)⟩)).2 = mainWritesFile none := by
  have hres : (generate c prompt model_id aspect_ratio duration data
      (.resp ⟨status, some (.obj fields)⟩)).2 = some [] := by
    simp [generate, raiseForStatusRaises_of_2xx hstatus, extractVideoBytes,
      Json.lookup, hpred, Json.truthy, hb64, b64decode, a2bBase64]
  exact ⟨hres, by rw [hres]; rfl⟩

/-- Witness for C10 at a concrete 200 response with an empty
bytesB64Encoded string. -/
theorem generate_empty_b64_empty_bytes_witness :
    (generate cfgTest "a cat" none "16:9" "5s" none
      (.resp ⟨200, some (goodResponseBody "")⟩)).2 = some [] ∧
    mainWritesFile
      (generate cfgTest "a cat" none "16:9" "5s" none
        (.resp ⟨200, some (goodResponseBody "")⟩)).2 = mainWritesFile none :=
  generate_empty_b64_empty_bytes cfgTest "a cat" none "16:9" "5s" none 200
    [("predictions", .arr [.obj [("bytesB64Encoded", .str "")]])]
    [("bytesB64Encoded", .str "")] [] (by decide) rfl rfl

/-- Claim C2: generate is a total function of its inputs and of the
outcome of the HTTP exchange — the embedding of the fact that its three
except clauses let no exception escape — and for every outcome its result
is either the None of a normalized failure, or the decoded bytes of a
fully successful exchange (response obtained, status outside the
raise_for_status range, JSON body parsed to an object of the documented
shape, base64 decode accepted).  Nothing else is ever returned. -/
theorem generate_no_throw_normalizes_failures (c : Constants)
    (prompt : String) (model_id : Option String)
    (aspect_ratio duration : String) (data : Option Json)
    (world : HttpOutcome) :
    (generate c prompt model_id aspect_ratio duration data world).2 = none ∨
    ∃ r fields pfields rest s bs,
      world = .resp r ∧
      raiseForStatusRaises r.status_code = false ∧
      r.jsonBody = some (Json.obj fields) ∧
      lookupField fields "predictions" =
        some (.arr (Json.obj pfields :: rest)) ∧
      lookupField pfields "bytesB64Encoded" = some (.str s) ∧
      b64decode s = some bs ∧
      (generate c prompt model_id aspect_ratio duration data world).2
        = some bs := by
  cases world with
  | requestError => exact Or.inl rfl
  | resp r =>
    cases hr : raiseForStatusRaises r.status_code with
    | true => exact Or.inl (by simp [generate, hr])
    | false =>
      cases hjb : r.jsonBody with
      | none => exact Or.inl (by simp [generate, hr, hjb])
      | some j =>
        cases hx : extractVideoBytes j with
        | none => exact Or.inl (by simp [generate, hr, hjb, hx])
        | some bs =>
          obtain ⟨fields, pfields, rest, s, hobj, hpred, hb, hdec⟩ :=
            extractVideoBytes_some hx
          refine Or.inr ⟨r, fields, pfields, rest, s, bs, rfl, hr,
            hobj ▸ hjb, hpred, hb, hdec, ?_⟩
          simp [generate, hr, hjb, hx]

end GoogleClients
